import Mathlib

/-!
Verification of the Orchids account-provisioning pipeline
(src/code/register/orchids_register.py) against its natural-language
specification.

The Python source is shallowly embedded: pure helpers become Lean
functions, the stateful loops become explicit recursion over finite
traces of external outcomes (poll cycles, driver-call results), and
Python exceptions become an explicit `Except` result.  Python's `\d`
character class is modelled by ASCII digits (`Char.isDigit`), and
Python whitespace by the ASCII whitespace characters.
-/

namespace Orchids


/-! ## Code Extractor (orchids_register.py line 95, lines 117-122)

The script extracts a verification code with
`re.search(r'(?<!\d)(\d{6})(?!\d)', source)`: a match at position `i`
requires six digit characters at `i..i+5`, a non-digit (or start of
text) just before `i`, and a non-digit (or end of text) just after.
`re.search` scans candidate start positions left to right and returns
the first match. -/

/-- Whether position `n` of the text holds a digit character; positions
outside the text count as non-digits (this is how the regex lookarounds
behave at the ends of the text). -/
def digitAt (s : List Char) (n : Nat) : Bool :=
  match s.get? n with
  | some c => c.isDigit
  | none => false

/-- The match condition of the regex at start position `i`:
six digits at `i..i+5`, not preceded by a digit, not followed by one. -/
def matchAt6 (s : List Char) (i : Nat) : Bool :=
  decide (i + 6 ≤ s.length) &&
  (digitAt s i && digitAt s (i+1) && digitAt s (i+2) &&
   digitAt s (i+3) && digitAt s (i+4) && digitAt s (i+5)) &&
  (decide (i = 0) || !digitAt s (i - 1)) &&
  !digitAt s (i + 6)

/-- Left-to-right scan for the first position satisfying `p`, starting
at `i`, examining `fuel` candidate positions.  This is the scan loop of
`re.search`. -/
def findFirstFrom (p : Nat → Bool) : Nat → Nat → Option Nat
  | _, 0 => none
  | i, fuel + 1 => if p i then some i else findFirstFrom p (i + 1) fuel

/-- Position of the first match of the strict 6-digit regex in `s`, or
`none` if it never matches (`re.search` over positions `0..s.length`). -/
def search_strict (s : List Char) : Option Nat :=
  findFirstFrom (matchAt6 s) 0 (s.length + 1)

/-- The extracted code: the six characters at the first match position
(`match.group(1)`), or `none` when `re.search` returns no match. -/
def extract_code (s : List Char) : Option (List Char) :=
  match search_strict s with
  | some i => some ((s.drop i).take 6)
  | none => none

/-! Specification-side description of a match: a maximal digit run of
length exactly six (six digits with non-digit neighbours on both
sides). -/

/-- Spec-side predicate: positions `i..i+5` of `s` form a maximal run
of exactly six digits (in bounds, all digits, and the characters just
before and just after — when they exist — are not digits). -/
def isolatedSixRun (s : List Char) (i : Nat) : Prop :=
  i + 6 ≤ s.length ∧
  (∀ k, k < 6 → digitAt s (i + k) = true) ∧
  (i = 0 ∨ digitAt s (i - 1) = false) ∧
  digitAt s (i + 6) = false

instance (s : List Char) (i : Nat) : Decidable (isolatedSixRun s i) := by
  unfold isolatedSixRun
  infer_instance

/-! ## Body normalization (orchids_register.py lines 111-113)

The raw message body is normalized before extraction:
`html.unescape`, then `re.sub(r'<[^>]+>', ' ', ...)` (tags become a
single space), then `re.sub(r'\s+', ' ', ...).strip()`. -/

/-- Model of Python's `html.unescape` restricted to the five core named
and numeric entities; other entity names of Python's full table are left
untouched, which no claim depends on. -/
def unescapeHtml : List Char → List Char
  | '&' :: 'a' :: 'm' :: 'p' :: ';' :: rest => '&' :: unescapeHtml rest
  | '&' :: 'l' :: 't' :: ';' :: rest => '<' :: unescapeHtml rest
  | '&' :: 'g' :: 't' :: ';' :: rest => '>' :: unescapeHtml rest
  | '&' :: 'q' :: 'u' :: 'o' :: 't' :: ';' :: rest => '"' :: unescapeHtml rest
  | '&' :: '#' :: '3' :: '9' :: ';' :: rest => Char.ofNat 39 :: unescapeHtml rest
  | c :: rest => c :: unescapeHtml rest
  | [] => []

/-- One non-overlapping leftmost match of `<[^>]+>` starting right
after a literal `<`: at least one non-`>` character followed by `>`.
Returns the text after the closing `>` when the pattern matches. -/
def tagRemainder (cs : List Char) : Option (List Char) :=
  let body := cs.takeWhile (fun c => !(c = '>' : Bool))
  if body.isEmpty then none
  else if body.length < cs.length then some (cs.drop (body.length + 1))
  else none

/-- Scanner of `re.sub(r'<[^>]+>', ' ', text)` with explicit fuel: each
leftmost non-overlapping tag-like group is replaced by one space; a `<`
that starts no match is kept and scanning resumes after it.  Every step
strictly shortens the text, so fuel equal to the text's length is
enough; the fuel only makes the recursion structural. -/
def stripTagsFuel : Nat → List Char → List Char
  | 0, l => l
  | _ + 1, [] => []
  | fuel + 1, '<' :: rest =>
    (match tagRemainder rest with
     | some after => ' ' :: stripTagsFuel fuel after
     | none => '<' :: stripTagsFuel fuel rest)
  | fuel + 1, c :: rest => c :: stripTagsFuel fuel rest

/-- Model of `re.sub(r'<[^>]+>', ' ', text)`. -/
def stripTags (l : List Char) : List Char :=
  stripTagsFuel l.length l

/-- Python whitespace (`\s`), modelled over ASCII. -/
def isPySpace (c : Char) : Bool :=
  c = ' ' || c = '\t' || c = '\n' || c = '\r' ||
  c = Char.ofNat 11 || c = Char.ofNat 12

/-- Model of `re.sub(r'\s+', ' ', text)`: every maximal whitespace run
becomes a single space.  The flag records whether the previous character
was inside a whitespace run. -/
def collapseWsAux : List Char → Bool → List Char
  | [], _ => []
  | c :: rest, inRun =>
    if isPySpace c then
      if inRun then collapseWsAux rest true
      else ' ' :: collapseWsAux rest true
    else c :: collapseWsAux rest false

/-- Model of Python's `str.strip()` on the whitespace class. -/
def pyStrip (l : List Char) : List Char :=
  ((l.dropWhile isPySpace).reverse.dropWhile isPySpace).reverse

/-- Full body normalization of lines 111-113: unescape entities, strip
markup tags to spaces, collapse whitespace, strip the ends. -/
def normalize_content (raw : List Char) : List Char :=
  pyStrip (collapseWsAux (stripTags (unescapeHtml raw)) false)

/-! ## Mailbox poll loop `wait_for_code` (orchids_register.py lines 91-127)

The loop runs while fewer than 120 seconds have elapsed.  Each
iteration fetches the message list (modelled as one `PollCycle`: the
fetch outcome plus the wall-clock seconds the fetch itself took).  Only
the newest message (`data[0]`) is inspected; an id already in
`processed_ids` is skipped; a fresh id is added to the set and
extraction is attempted on its subject and then on its normalized body.
A found code returns immediately.  Every exception inside the loop body
is swallowed by the bare `except: pass` — note that this also skips the
`time.sleep(3)` that sits inside the `try`. -/

/-- Python exception classes relevant to the control flow: an ordinary
`Exception` (caught by `except Exception`), or a `BaseException` that
is not an `Exception` (caught only by a bare `except`). -/
inductive PyErr where
  | exception
  | baseException
deriving DecidableEq

/-- Immutable snapshot of one mailbox message
(`{id, subject, content | html_content}`). -/
structure InboxMessage where
  id : String
  subject : String
  content : Option String
  htmlContent : Option String
deriving DecidableEq

deriving instance DecidableEq for Except

/-- One iteration's interaction with the mailbox backend: the outcome
of `http.get(...)` plus JSON parsing, and the seconds that call took. -/
structure PollCycle where
  fetch : Except PyErr (List InboxMessage)
  dur : Nat
deriving DecidableEq

/-- Model of `latest_email.get('content') or latest_email.get('html_content') or ''`:
the first truthy (present and non-empty) field, else the empty string. -/
def message_raw_content (m : InboxMessage) : String :=
  match m.content with
  | some s => if s = "" then m.htmlContent.getD "" else s
  | none => m.htmlContent.getD ""

/-- Extraction attempt on one fresh message (lines 108-122): the strict
regex is searched in the subject first, then in the normalized body. -/
def extract_message (m : InboxMessage) : Option String :=
  match extract_code m.subject.toList with
  | some cs => some (String.mk cs)
  | none =>
    match extract_code (normalize_content (message_raw_content m).toList) with
    | some cs => some (String.mk cs)
    | none => none

/-- Observable outcome of a run of the poll loop: the returned code,
the final elapsed seconds, the final `processed_ids`, the ids on which
extraction was invoked, the elapsed time at the start of each fetch,
and how many times `time.sleep(3)` ran. -/
structure PollResult where
  code : Option String
  elapsed : Nat
  processed : List String
  invoked : List String
  starts : List Nat
  sleeps : Nat
deriving DecidableEq

/-- The poll loop of `wait_for_code` over a finite trace of fetch
outcomes: while `elapsed < 120` and cycles remain, fetch; on a fetch
error the bare `except` swallows it and the loop retries at once (the
sleep inside the `try` is skipped); otherwise the newest message is
deduplicated against `processed`, extraction is attempted on a fresh
one, and a found code is returned before sleeping. -/
def wait_go : List PollCycle → Nat → List String → PollResult
  | [], t, proc => ⟨none, t, proc, [], [], 0⟩
  | c :: rest, t, proc =>
    if 120 ≤ t then ⟨none, t, proc, [], [], 0⟩
    else
      match c.fetch with
      | .error _ =>
        -- except: pass — retried immediately, no sleep
        let r := wait_go rest (t + c.dur) proc
        ⟨r.code, r.elapsed, r.processed, r.invoked, t :: r.starts, r.sleeps⟩
      | .ok msgs =>
        match msgs with
        | [] =>
          -- empty inbox: fall through to time.sleep(3)
          let r := wait_go rest (t + c.dur + 3) proc
          ⟨r.code, r.elapsed, r.processed, r.invoked, t :: r.starts, r.sleeps + 1⟩
        | latest :: _ =>
          if latest.id ∈ proc then
            -- already processed: only the sleep happens
            let r := wait_go rest (t + c.dur + 3) proc
            ⟨r.code, r.elapsed, r.processed, r.invoked, t :: r.starts, r.sleeps + 1⟩
          else
            match extract_message latest with
            | some code =>
              -- return code (before any sleep)
              ⟨some code, t + c.dur, latest.id :: proc, [latest.id], [t], 0⟩
            | none =>
              let r := wait_go rest (t + c.dur + 3) (latest.id :: proc)
              ⟨r.code, r.elapsed, r.processed, latest.id :: r.invoked,
               t :: r.starts, r.sleeps + 1⟩

/-- Entry point of the model of `wait_for_code`: elapsed time starts at
0 and `processed_ids` starts empty. -/
def wait_for_code (cycles : List PollCycle) : PollResult :=
  wait_go cycles 0 []

/-- Effect of an errored iteration on the rest of the run: the fetch
start time is recorded and no sleep happens. -/
def pollErrStep (r : PollResult) (t : Nat) : PollResult :=
  ⟨r.code, r.elapsed, r.processed, r.invoked, t :: r.starts, r.sleeps⟩

/-- Effect of a code-less successful iteration: the fetch start time is
recorded and one `time.sleep(3)` happens. -/
def pollSleepStep (r : PollResult) (t : Nat) : PollResult :=
  ⟨r.code, r.elapsed, r.processed, r.invoked, t :: r.starts, r.sleeps + 1⟩

/-- Effect of an iteration that processed a fresh message without
finding a code: additionally the extraction invocation is recorded. -/
def pollInvokeStep (r : PollResult) (msgId : String) (t : Nat) : PollResult :=
  ⟨r.code, r.elapsed, r.processed, msgId :: r.invoked, t :: r.starts,
   r.sleeps + 1⟩

/-- Concrete poll trace for the dedup witness: the same newest message
id "m1" (whose texts hold no code) appears in three consecutive
cycles. -/
def c3Cycles : List PollCycle :=
  [⟨Except.ok [⟨"m1", "hello", some "no code here", none⟩], 1⟩,
   ⟨Except.ok [⟨"m1", "hello", some "no code here", none⟩], 1⟩,
   ⟨Except.ok [⟨"m1", "hello", some "no code here", none⟩], 1⟩]

/-! ## Timing and error behaviour of the poll loop (claim C4)

The loop never lets a backend failure escape: the bare `except: pass`
swallows everything raised inside the `try`.  But because the
`time.sleep(3)` statement sits inside that same `try`, a fetch error
also skips the sleep: the next fetch starts immediately after the
failed one, not on a 3-second interval. -/

/-- Total duration of the fetch calls of a list of cycles. -/
def cycleDurSum (cs : List PollCycle) : Nat := (cs.map PollCycle.dur).sum

/-- Whether a cycle's fetch raised. -/
def isFetchErr (c : PollCycle) : Bool :=
  match c.fetch with
  | .error _ => true
  | .ok _ => false

/-- Concrete poll trace for the C4 witness: an errored fetch followed
by a successful fetch whose newest message holds the code 482913. -/
def c4Cycles : List PollCycle :=
  [⟨Except.error PyErr.exception, 1⟩,
   ⟨Except.ok [⟨"m2", "Your code is 482913", some "", none⟩], 2⟩]

/-! ## Credential extraction and publishing
(orchids_register.py lines 52-77 and 246-274)

After the code is entered, all cookies are read and the loop at lines
256-267 scans them: whenever a cookie is named `__client` its value
overwrites the running `client_key`; the `'clerk' in domain` test only
produces a log line.  When a key was found, `upload_to_server` first
prints the `CLIENT_KEY:<value>` line, then — only when a server URL is
configured — POSTs the credential, treating HTTP 200/201 as success and
any other status or exception as failure.  The attempt sets
`success = True` regardless of the upload's return value. -/

/-- One cookie of the browser session
(`{name, domain, value}` as read from CDP or `get_cookies`). -/
structure Cookie where
  name : String
  domain : String
  value : String
deriving DecidableEq

/-- The selection loop of lines 256-267: for every cookie named
`__client` the running `client_key` is overwritten with that cookie's
value (so the last such cookie wins); the `'clerk' in domain` check
only logs and does not affect the selection. -/
def selectClientKey : List Cookie → Option String → Option String
  | [], acc => acc
  | c :: rest, acc =>
    selectClientKey rest (if c.name = "__client" then some c.value else acc)

/-- The credential selection of lines 255-267, starting from
`client_key = None`. -/
def select_client_key (cookies : List Cookie) : Option String :=
  selectClientKey cookies none

/-- Model of Python's substring test (`needle in haystack`). -/
def str_contains (hay needle : String) : Bool :=
  (List.range (hay.toList.length + 1)).any
    (fun i => needle.toList.isPrefixOf (hay.toList.drop i))

/-- Observable side effects of the pipeline that the claims mention. -/
inductive Event where
  | created
  | closed
  | slept (secs : Nat)
  | printedClientKey (value : String)
deriving DecidableEq

/-- Whether an event is the `CLIENT_KEY:` line on standard output. -/
def is_client_key_print : Event → Bool
  | .printedClientKey _ => true
  | _ => false

/-- Model of `upload_to_server` (lines 52-77).  The `CLIENT_KEY:` line
is printed unconditionally before anything else.  An empty server URL
returns `True` at once.  Otherwise `postResult` is the outcome of
`requests.post`: `none` models a raised exception (caught, logged,
function returns `False`), `some status` models a reply, successful
exactly for status 200 or 201. -/
def upload_to_server (clientKey serverUrl : String)
    (postResult : Option Nat) : Bool × List Event :=
  let evs := [Event.printedClientKey clientKey]
  if serverUrl = "" then (true, evs)
  else
    match postResult with
    | none => (false, evs)
    | some status =>
      if status = 200 ∨ status = 201 then (true, evs) else (false, evs)

/-- Model of lines 255-274: select the credential from the cookies;
when one is found, call `upload_to_server` and set `success = True`
regardless of the upload's boolean result; otherwise `success` stays
`False`. -/
def credential_phase (cookies : List Cookie) (serverUrl : String)
    (postResult : Option Nat) : Bool × List Event :=
  match select_client_key cookies with
  | some key =>
    let u := upload_to_server key serverUrl postResult
    (true, u.snd)
  | none => (false, [])

/-- Concrete cookie set refuting C2: both cookies are named
`__client`; the first's domain contains "clerk", the second's does
not. -/
def c2Cookies : List Cookie :=
  [⟨"__client", "clerk.orchids.app", "clerk-value"⟩,
   ⟨"__client", "www.orchids.app", "other-value"⟩]

/-! ## Attempt state machine `register_one_account`
(orchids_register.py lines 129-289) and batch `main` (lines 339-368)

One attempt drives the browser through the sign-up flow.  Its
interactions with the outside world (driver calls, the mailbox, the
credential store) are collected in an `Env`: each fallible call's
outcome is a field.  `Except.error PyErr.exception` is a raised
`Exception`, `Except.error PyErr.baseException` a raised
`BaseException` that is not an `Exception` (only a bare `except`
catches it). -/

/-- Outcome of a statement region inside the `try` block: fall through
(`ok`), an early `return False` (`retFalse`), or an escaping
exception (`err`). -/
inductive StepRes (α : Type) where
  | ok (a : α)
  | retFalse
  | err (e : PyErr)
deriving DecidableEq

/-- The external world one attempt interacts with.  Fields appear in
the order the source consults them. -/
structure Env where
  /-- whether `import undetected_chromedriver` / `selenium` succeeds (lines 133-141) -/
  depsAvailable : Bool
  /-- `uc.Chrome(...)` (line 156) -/
  chromeStart : Except PyErr Unit
  /-- `driver.get(TARGET_URL)` (line 161) -/
  navigate : Except PyErr Unit
  /-- wait-and-click of the Sign-in affordance (lines 168-169) -/
  signInClick : Except PyErr Unit
  /-- fallback `driver.get(".../sign-in")` (line 173) -/
  gotoSignIn : Except PyErr Unit
  /-- wait for the Welcome-back / Sign-in text (line 176) -/
  welcomeVisible : Except PyErr Unit
  /-- wait-and-click of the Sign-up link (lines 180-181) -/
  signUpClick : Except PyErr Unit
  /-- fallback `driver.get(".../sign-up")` (line 184) -/
  gotoSignUp : Except PyErr Unit
  /-- wait for the email field (line 188) -/
  emailFieldVisible : Except PyErr Unit
  /-- `create_temp_email()` (line 189): the function catches its own
  errors and returns `None` on failure -/
  tempEmail : Option String
  /-- typing into the email field (line 194) -/
  fillEmail : Except PyErr Unit
  /-- typing into the password field (line 195) -/
  fillPassword : Except PyErr Unit
  /-- clicking the Continue button (line 199) -/
  continueClick : Except PyErr Unit
  /-- fallback `submit()` on the password field (line 201) -/
  passwordSubmit : Except PyErr Unit
  /-- per-iteration presence check of the numeric code field (line 207) -/
  codeFieldCheck : Nat → Except PyErr Bool
  /-- per-iteration `force_inject_turnstile` outcome (line 214); always
  swallowed by the bare `except` at line 215 -/
  turnstile : Nat → Except PyErr Bool
  /-- the 10-second presence wait for the OTP input (line 225) -/
  otpPresent : Except PyErr Unit
  /-- the mailbox backend's behaviour during `wait_for_code` (line 226) -/
  pollCycles : List PollCycle
  /-- typing the code into the OTP field (line 230) -/
  typeCode : Except PyErr Unit
  /-- whether `"sign-up" in driver.current_url` (line 234) -/
  urlStillSignUp : Bool
  /-- the username sub-step's outcome (lines 236-243); always swallowed
  by the bare `except` at line 244 -/
  usernameAction : Except PyErr Unit
  /-- `driver.execute_cdp_cmd('Network.getAllCookies', {})` (line 249) -/
  cdpCookies : Except PyErr (List Cookie)
  /-- fallback `driver.get_cookies()` (line 252) -/
  getCookies : Except PyErr (List Cookie)
  /-- the `--server` URL forwarded to `upload_to_server` (line 271) -/
  serverUrl : String
  /-- the outcome of `requests.post` inside `upload_to_server` -/
  postResult : Option Nat

/-- Lines 167-174: try the Sign-in click; `except Exception` (so not a
`BaseException`) falls back to direct navigation plus a 2-second
sleep; a failing fallback escapes. -/
def sign_in_step (env : Env) : Except PyErr Unit × List Event :=
  match env.signInClick with
  | .ok _ => (.ok (), [])
  | .error PyErr.baseException => (.error PyErr.baseException, [])
  | .error PyErr.exception =>
    match env.gotoSignIn with
    | .error e => (.error e, [])
    | .ok _ => (.ok (), [Event.slept 2])

/-- Lines 179-185: try the Sign-up click; the bare `except` catches
anything and falls back to direct navigation plus a 2-second sleep. -/
def sign_up_step (env : Env) : Except PyErr Unit × List Event :=
  match env.signUpClick with
  | .ok _ => (.ok (), [])
  | .error _ =>
    match env.gotoSignUp with
    | .error e => (.error e, [])
    | .ok _ => (.ok (), [Event.slept 2])

/-- Lines 159-185: navigate to the target, sleep 3 seconds, reach the
sign-in view, then the sign-up view. -/
def nav_phase (env : Env) : Except PyErr Unit × List Event :=
  match env.navigate with
  | .error e => (.error e, [])
  | .ok _ =>
    match sign_in_step env with
    | (.error e, evs) => (.error e, Event.slept 3 :: evs)
    | (.ok _, evs) =>
      match env.welcomeVisible with
      | .error e => (.error e, Event.slept 3 :: evs)
      | .ok _ =>
        match sign_up_step env with
        | (.error e, evs2) => (.error e, Event.slept 3 :: (evs ++ evs2))
        | (.ok _, evs2) => (.ok (), Event.slept 3 :: (evs ++ evs2))

/-- Lines 197-201: try the Continue click; the bare `except` falls back
to submitting the password field. -/
def continue_step (env : Env) : Except PyErr Unit × List Event :=
  match env.continueClick with
  | .ok _ => (.ok (), [])
  | .error _ =>
    match env.passwordSubmit with
    | .error e => (.error e, [])
    | .ok _ => (.ok (), [])

/-- Lines 187-201: wait for the form to be visible, acquire a mailbox
address (`if not email: return False`), fill both fields, then the
Continue click with its fallback. -/
def form_phase (env : Env) : StepRes Unit × List Event :=
  match env.emailFieldVisible with
  | .error e => (.err e, [])
  | .ok _ =>
    match env.tempEmail with
    | none => (.retFalse, [])
    | some _ =>
      match env.fillEmail with
      | .error e => (.err e, [])
      | .ok _ =>
        match env.fillPassword with
        | .error e => (.err e, [])
        | .ok _ =>
          match continue_step env with
          | (.error e, evs) => (.err e, evs)
          | (.ok _, evs) => (.ok (), evs)

/-- Lines 205-217: the challenge-clearing loop.  `i` is the index of
the next iteration, the second argument the remaining iterations of
`range(15)`.  Each iteration checks for the numeric code field (a
raised check escapes the loop); when absent it invokes the Challenge
Solver — whose outcome is swallowed — and sleeps 2 seconds.  Returns
the `pass_check` flag, the number of checks performed and the sleep
events. -/
def challenge_go (check turn : Nat → Except PyErr Bool) :
    Nat → Nat → Except PyErr Bool × Nat × List Event
  | i, 0 => (.ok false, i, [])
  | i, r + 1 =>
    match check i with
    | .error e => (.error e, i + 1, [])
    | .ok true => (.ok true, i + 1, [])
    | .ok false =>
      let _t := turn i
      let res := challenge_go check turn (i + 1) r
      (res.fst, res.snd.fst, Event.slept 2 :: res.snd.snd)

/-- Lines 204-221: run the loop; `pass_check` still false afterwards
means `return False` (the challenge-timeout failure). -/
def verify_phase (check turn : Nat → Except PyErr Bool) :
    StepRes Unit × List Event :=
  match challenge_go check turn 0 15 with
  | (.error e, _, evs) => (.err e, evs)
  | (.ok pass, _, evs) =>
    if pass then (.ok (), evs) else (.retFalse, evs)

/-- Lines 233-244: the optional username sub-step; it runs only when
the location still shows the sign-up flow and every failure inside it
is swallowed by the bare `except: pass`. -/
def username_step (env : Env) : List Event :=
  if env.urlStillSignUp then
    match env.usernameAction with
    | _ => []
  else []

/-- Lines 247-252: read all cookies via the privileged CDP command; on
any failure fall back to the page-scoped `driver.get_cookies()` (whose
own failure escapes to the outer handler). -/
def cookie_read (env : Env) : Except PyErr (List Cookie) :=
  match env.cdpCookies with
  | .ok cs => .ok cs
  | .error _ => env.getCookies

/-- Lines 223-276: wait for the OTP input, poll the mailbox; with no
code, fall through with `success = False`; with a code, type it, sleep
5 seconds, maybe do the username sub-step, read the cookies, then run
the credential selection and upload.  Returns the final value of
`success`. -/
def code_phase (env : Env) : StepRes Bool × List Event :=
  match env.otpPresent with
  | .error e => (.err e, [])
  | .ok _ =>
    match (wait_for_code env.pollCycles).code with
    | none => (.ok false, [])
    | some _ =>
      match env.typeCode with
      | .error e => (.err e, [])
      | .ok _ =>
        let uevs := username_step env
        match cookie_read env with
        | .error e => (.err e, Event.slept 5 :: uevs)
        | .ok cookies =>
          let cred := credential_phase cookies env.serverUrl env.postResult
          (.ok cred.fst, Event.slept 5 :: (uevs ++ cred.snd))

/-- The whole `try` block of lines 154-276: the phases in source order.
The first event after a successful `uc.Chrome` is `created`; any
`retFalse` is an early `return False` (still routed through the
`finally`); any `err` escapes to the outer handler. -/
def attempt_try (env : Env) : Except PyErr Bool × List Event :=
  match env.chromeStart with
  | .error e => (.error e, [])
  | .ok _ =>
    match nav_phase env with
    | (.error e, evs) => (.error e, Event.created :: evs)
    | (.ok _, evs) =>
      match form_phase env with
      | (.err e, evs2) => (.error e, Event.created :: (evs ++ evs2))
      | (.retFalse, evs2) => (.ok false, Event.created :: (evs ++ evs2))
      | (.ok _, evs2) =>
        match verify_phase env.codeFieldCheck env.turnstile with
        | (.err e, evs3) =>
          (.error e, Event.created :: (evs ++ evs2 ++ evs3))
        | (.retFalse, evs3) =>
          (.ok false, Event.created :: (evs ++ evs2 ++ evs3))
        | (.ok _, evs3) =>
          match code_phase env with
          | (.err e, evs4) =>
            (.error e, Event.created :: (evs ++ evs2 ++ evs3 ++ evs4))
          | (.retFalse, evs4) =>
            (.ok false, Event.created :: (evs ++ evs2 ++ evs3 ++ evs4))
          | (.ok success, evs4) =>
            (.ok success, Event.created :: (evs ++ evs2 ++ evs3 ++ evs4))

/-- Model of the `finally` block's close (lines 280-287): `try:
driver.service.stop(); driver.quit() except: pass`.  Whether or not
stop or quit raises, the block completes normally; `closed` records
that the release was invoked. -/
def close_driver (stopOrQuitRaises : Bool) : List Event :=
  [Event.closed]

/-- The outer `except Exception` handler (lines 278-279) combined with
the final `return success` (line 289): an `Exception` is logged and the
function returns the current `success` (still `False`, since nothing
can raise after `success = True`); a `BaseException` propagates after
the `finally`. -/
def handle_outcome : Except PyErr Bool → Except PyErr Bool
  | .ok b => .ok b
  | .error PyErr.exception => .ok false
  | .error PyErr.baseException => .error PyErr.baseException

/-- One full attempt (lines 129-289).  A missing browser-driver
dependency is caught at lines 138-141 and returns `False` before any
session exists.  Otherwise the `try` body runs; the `finally` closes
the driver exactly when one was created, swallowing any failure of the
close itself (`closeRaises`). -/
def register_one_account (env : Env) (closeRaises : Bool) :
    Except PyErr Bool × List Event :=
  if env.depsAvailable = false then (.ok false, [])
  else
    (handle_outcome (attempt_try env).fst,
     (attempt_try env).snd ++
       (if Event.created ∈ (attempt_try env).snd then close_driver closeRaises
        else []))

/-- Whether an attempt terminated normally (returned a boolean rather
than propagating an exception). -/
def attempt_completed (p : Env × Bool) : Bool :=
  match (register_one_account p.fst p.snd).fst with
  | .ok _ => true
  | .error _ => false

/-- Whether an attempt returned `True`. -/
def attempt_succeeded (p : Env × Bool) : Bool :=
  match (register_one_account p.fst p.snd).fst with
  | .ok true => true
  | _ => false

/-- The batch loop of `main` (lines 355-368) over one `Env` (and close
behaviour) per attempt: each attempt that returns `True` bumps
`success_count`; a propagating exception aborts the process; at the end
`main` returns `0 if success_count > 0 else 1`.  The result is
`(success_count, attempts started, exit code)`.  The randomized 8-15
second inter-attempt sleep (lines 359-363) does not affect these
values and is not modelled. -/
def main_go : List (Env × Bool) → Nat → Nat → Except PyErr (Nat × Nat × Nat)
  | [], succ, started => .ok (succ, started, if 0 < succ then 0 else 1)
  | p :: rest, succ, started =>
    match (register_one_account p.fst p.snd).fst with
    | .ok true => main_go rest (succ + 1) (started + 1)
    | .ok false => main_go rest succ (started + 1)
    | .error e => .error e

/-- Entry point of the batch model (`main`, lines 339-368). -/
def main_run (pairs : List (Env × Bool)) : Except PyErr (Nat × Nat × Nat) :=
  main_go pairs 0 0

/-- Number of `CLIENT_KEY:` lines among a list of events. -/
def printCount (evs : List Event) : Nat :=
  evs.countP is_client_key_print

/-- An environment in which every external interaction succeeds: the
mailbox message holds the code 482913 and the cookie set holds the
`__client` cookie on the clerk domain. -/
def envSuccess : Env where
  depsAvailable := true
  chromeStart := .ok ()
  navigate := .ok ()
  signInClick := .ok ()
  gotoSignIn := .ok ()
  welcomeVisible := .ok ()
  signUpClick := .ok ()
  gotoSignUp := .ok ()
  emailFieldVisible := .ok ()
  tempEmail := some "a@b.test"
  fillEmail := .ok ()
  fillPassword := .ok ()
  continueClick := .ok ()
  passwordSubmit := .ok ()
  codeFieldCheck := fun _ => .ok true
  turnstile := fun _ => .ok true
  otpPresent := .ok ()
  pollCycles := [⟨.ok [⟨"m1", "Your code is 482913", some "", none⟩], 1⟩]
  typeCode := .ok ()
  urlStillSignUp := false
  usernameAction := .ok ()
  cdpCookies := .ok [⟨"__client", "clerk.orchids.app", "tok_abc"⟩]
  getCookies := .ok []
  serverUrl := ""
  postResult := none

/-- The success environment with the browser-driver dependency
unavailable (the `ImportError` case of lines 133-141). -/
def envNoDeps : Env :=
  { envSuccess with depsAvailable := false }

/-- The success environment in which the numeric code field never
appears, so the challenge-clearing loop runs out. -/
def envChallengeStuck : Env :=
  { envSuccess with codeFieldCheck := fun _ => Except.ok false }

/-- Witness inputs for C8: a field check that always reports the code
field absent, and a solver that always reports success. -/
def constFalseCheck : Nat → Except PyErr Bool := fun _ => Except.ok false

/-- Solver outcome used alongside `constFalseCheck` in the witness. -/
def constOkTurn : Nat → Except PyErr Bool := fun _ => Except.ok true

/-- The attempt outcome trace [fail, success, fail] of the C5
witness. -/
def c5Pairs : List (Env × Bool) :=
  [(envNoDeps, false), (envSuccess, false), (envNoDeps, false)]

/-- Concrete text used to witness the Code Extractor theorem: it holds
a 7-digit run (positions 3-9) and an isolated 6-digit run
(positions 14-19). -/
def c1Text : List Char := String.toList "ab 1234567 cd 654321 x"

/-! ## Theorems -/

theorem matchAt6_iff (s : List Char) (i : Nat) :
    matchAt6 s i = true ↔ isolatedSixRun s i := by
  unfold matchAt6 isolatedSixRun
  simp only [Bool.and_eq_true, Bool.or_eq_true, Bool.not_eq_true',
    decide_eq_true_eq]
  constructor
  · rintro ⟨⟨⟨hlen, hd⟩, hpre⟩, hpost⟩
    refine ⟨hlen, ?_, ?_, hpost⟩
    · intro k hk
      interval_cases k <;> simp_all
    · rcases hpre with h | h
      · exact Or.inl h
      · exact Or.inr h
  · rintro ⟨hlen, hd, hpre, hpost⟩
    refine ⟨⟨⟨hlen, ?_⟩, ?_⟩, hpost⟩
    · refine ⟨⟨⟨⟨⟨hd 0 (by omega), ?_⟩, ?_⟩, ?_⟩, ?_⟩, ?_⟩
      · exact hd 1 (by omega)
      · exact hd 2 (by omega)
      · exact hd 3 (by omega)
      · exact hd 4 (by omega)
      · exact hd 5 (by omega)
    · rcases hpre with h | h
      · exact Or.inl h
      · exact Or.inr h

theorem findFirstFrom_eq_some {p : Nat → Bool} {i fuel j : Nat}
    (h : findFirstFrom p i fuel = some j) :
    p j = true ∧ i ≤ j ∧ ∀ k, i ≤ k → k < j → p k = false := by
  induction fuel generalizing i with
  | zero => simp [findFirstFrom] at h
  | succ n ih =>
    rw [findFirstFrom] at h
    by_cases hp : p i = true
    · rw [if_pos hp] at h
      cases h
      exact ⟨hp, Nat.le_refl _, fun k hk1 hk2 => absurd hk1 (by omega)⟩
    · rw [if_neg hp] at h
      obtain ⟨h1, h2, h3⟩ := ih h
      refine ⟨h1, by omega, fun k hk1 hk2 => ?_⟩
      by_cases hk : k = i
      · subst hk
        exact Bool.eq_false_iff.mpr hp
      · exact h3 k (by omega) hk2

theorem findFirstFrom_eq_none {p : Nat → Bool} {i fuel : Nat}
    (h : findFirstFrom p i fuel = none) :
    ∀ k, i ≤ k → k < i + fuel → p k = false := by
  induction fuel generalizing i with
  | zero => intro k h1 h2; omega
  | succ n ih =>
    rw [findFirstFrom] at h
    by_cases hp : p i = true
    · rw [if_pos hp] at h; cases h
    · rw [if_neg hp] at h
      intro k hk1 hk2
      by_cases hk : k = i
      · subst hk; exact Bool.eq_false_iff.mpr hp
      · exact ih h k (by omega) (by omega)

theorem findFirstFrom_isSome {p : Nat → Bool} {i fuel j : Nat}
    (hp : p j = true) (h1 : i ≤ j) (h2 : j < i + fuel) :
    (findFirstFrom p i fuel).isSome := by
  cases hf : findFirstFrom p i fuel with
  | none =>
    have := findFirstFrom_eq_none hf j h1 h2
    rw [hp] at this
    cases this
  | some k => rfl

/-- C1.  Code Extractor: extraction returns the first maximal run of
exactly 6 digits not adjacent to another digit, and `none` when no such
run exists; a 6-digit window inside a digit run of length ≥ 7 is never
the match; and a text with no run of 6 consecutive digits yields
`none`. -/
theorem code_extractor_first_isolated_six (s : List Char) :
    ((∀ i, ¬ isolatedSixRun s i) → extract_code s = none) ∧
    (∀ i, isolatedSixRun s i →
      ∃ j, search_strict s = some j ∧ j ≤ i ∧ isolatedSixRun s j ∧
        (∀ k, k < j → ¬ isolatedSixRun s k) ∧
        extract_code s = some ((s.drop j).take 6)) ∧
    (∀ i L j, 7 ≤ L → (∀ k, k < L → digitAt s (i + k) = true) →
      search_strict s = some j → ¬ (i ≤ j ∧ j + 6 ≤ i + L)) ∧
    ((∀ i, ¬ ∀ k, k < 6 → digitAt s (i + k) = true) →
      extract_code s = none) := by
  refine ⟨?_, ?_, ?_, ?_⟩
  · intro hno
    unfold extract_code
    cases hf : search_strict s with
    | none => rfl
    | some j =>
      obtain ⟨hp, _, _⟩ := findFirstFrom_eq_some hf
      exact absurd ((matchAt6_iff s j).mp hp) (hno j)
  · intro i hi
    have hp : matchAt6 s i = true := (matchAt6_iff s i).mpr hi
    have hlt : i < 0 + (s.length + 1) := by
      have := hi.1
      omega
    have hsome := findFirstFrom_isSome hp (Nat.zero_le i) hlt
    cases hf : search_strict s with
    | none => rw [search_strict] at hf; rw [hf] at hsome; cases hsome
    | some j =>
      obtain ⟨hpj, _, hmin⟩ := findFirstFrom_eq_some hf
      refine ⟨j, rfl, ?_, (matchAt6_iff s j).mp hpj, ?_, ?_⟩
      · by_contra hij
        have := hmin i (Nat.zero_le i) (by omega)
        rw [hp] at this
        cases this
      · intro k hk hki
        have := hmin k (Nat.zero_le k) hk
        rw [(matchAt6_iff s k).mpr hki] at this
        cases this
      · unfold extract_code
        rw [hf]
  · intro i L j hL hrun hf hcontra
    obtain ⟨hij, hjL⟩ := hcontra
    obtain ⟨hpj, _, _⟩ := findFirstFrom_eq_some hf
    obtain ⟨_, _, hpre, hpost⟩ := (matchAt6_iff s j).mp hpj
    by_cases hend : j + 6 = i + L
    · -- the window is the tail of the run, so a digit sits just before it
      have hj0 : 0 < j := by omega
      have : digitAt s (j - 1) = true := by
        have := hrun (j - 1 - i) (by omega)
        have heq : i + (j - 1 - i) = j - 1 := by omega
        rw [heq] at this
        exact this
      rcases hpre with h | h
      · omega
      · rw [h] at this; cases this
    · -- otherwise a digit of the run sits just after the window
      have : digitAt s (j + 6) = true := by
        have := hrun (j + 6 - i) (by omega)
        have heq : i + (j + 6 - i) = j + 6 := by omega
        rw [heq] at this
        exact this
      rw [hpost] at this
      cases this
  · intro hno
    unfold extract_code
    cases hf : search_strict s with
    | none => rfl
    | some j =>
      obtain ⟨hp, _, _⟩ := findFirstFrom_eq_some hf
      obtain ⟨_, hd, _, _⟩ := (matchAt6_iff s j).mp hp
      exact absurd (fun k hk => hd k hk) (hno j)

theorem tagRemainder_length {cs rest : List Char}
    (h : tagRemainder cs = some rest) : rest.length < cs.length := by
  unfold tagRemainder at h
  by_cases h1 : (cs.takeWhile (fun c => !(c = '>' : Bool))).isEmpty
  · simp [h1] at h
  · rw [if_neg h1] at h
    by_cases h2 : (cs.takeWhile (fun c => !(c = '>' : Bool))).length < cs.length
    · rw [if_pos h2] at h
      cases h
      rw [List.length_drop]
      omega
    · simp [h2] at h

theorem wait_go_budget (cycles : List PollCycle) (t : Nat)
    (proc : List String) (h : 120 ≤ t) :
    wait_go cycles t proc = ⟨none, t, proc, [], [], 0⟩ := by
  cases cycles with
  | nil => rfl
  | cons c rest => rw [wait_go, if_pos h]

theorem wait_go_step_err (e : PyErr) (d : Nat) (rest : List PollCycle)
    (t : Nat) (proc : List String) (h : ¬ 120 ≤ t) :
    wait_go (⟨Except.error e, d⟩ :: rest) t proc =
      pollErrStep (wait_go rest (t + d) proc) t := by
  rw [wait_go, if_neg h]
  rfl

theorem wait_go_step_emptyInbox (d : Nat) (rest : List PollCycle)
    (t : Nat) (proc : List String) (h : ¬ 120 ≤ t) :
    wait_go (⟨Except.ok [], d⟩ :: rest) t proc =
      pollSleepStep (wait_go rest (t + d + 3) proc) t := by
  rw [wait_go, if_neg h]
  rfl

theorem wait_go_step_msg (latest : InboxMessage) (tail : List InboxMessage)
    (d : Nat) (rest : List PollCycle) (t : Nat) (proc : List String)
    (h : ¬ 120 ≤ t) :
    wait_go (⟨Except.ok (latest :: tail), d⟩ :: rest) t proc =
      (if latest.id ∈ proc then
        pollSleepStep (wait_go rest (t + d + 3) proc) t
      else
        match extract_message latest with
        | some code =>
          ⟨some code, t + d, latest.id :: proc, [latest.id], [t], 0⟩
        | none =>
          pollInvokeStep (wait_go rest (t + d + 3) (latest.id :: proc))
            latest.id t) := by
  rw [wait_go, if_neg h]
  rfl

theorem wait_go_step_dup (latest : InboxMessage) (tail : List InboxMessage)
    (d : Nat) (rest : List PollCycle) (t : Nat) (proc : List String)
    (h : ¬ 120 ≤ t) (hmem : latest.id ∈ proc) :
    wait_go (⟨Except.ok (latest :: tail), d⟩ :: rest) t proc =
      pollSleepStep (wait_go rest (t + d + 3) proc) t := by
  rw [wait_go_step_msg latest tail d rest t proc h, if_pos hmem]

theorem wait_go_step_found (latest : InboxMessage) (tail : List InboxMessage)
    (d : Nat) (rest : List PollCycle) (t : Nat) (proc : List String)
    (code : String) (h : ¬ 120 ≤ t) (hmem : latest.id ∉ proc)
    (hex : extract_message latest = some code) :
    wait_go (⟨Except.ok (latest :: tail), d⟩ :: rest) t proc =
      ⟨some code, t + d, latest.id :: proc, [latest.id], [t], 0⟩ := by
  rw [wait_go_step_msg latest tail d rest t proc h, if_neg hmem, hex]

theorem wait_go_step_fresh (latest : InboxMessage) (tail : List InboxMessage)
    (d : Nat) (rest : List PollCycle) (t : Nat) (proc : List String)
    (h : ¬ 120 ≤ t) (hmem : latest.id ∉ proc)
    (hex : extract_message latest = none) :
    wait_go (⟨Except.ok (latest :: tail), d⟩ :: rest) t proc =
      pollInvokeStep (wait_go rest (t + d + 3) (latest.id :: proc))
        latest.id t := by
  rw [wait_go_step_msg latest tail d rest t proc h, if_neg hmem, hex]

/-- C3.  Mailbox poll deduplication: over any run of the poll loop the
`processed_ids` set only grows (the initial ids all survive to the
final set), extraction is invoked at most once per distinct message id
(the invocation list has no duplicates), and every invoked id was not
yet processed when the run began. -/
theorem poll_dedup_invariants (cycles : List PollCycle) (t : Nat)
    (proc : List String) :
    (∀ x, x ∈ proc → x ∈ (wait_go cycles t proc).processed) ∧
    (wait_go cycles t proc).invoked.Nodup ∧
    (∀ x, x ∈ (wait_go cycles t proc).invoked → x ∉ proc) := by
  induction cycles generalizing t proc with
  | nil =>
    simp [wait_go]
  | cons c rest ih =>
    obtain ⟨fetch, d⟩ := c
    by_cases h120 : 120 ≤ t
    · rw [wait_go_budget _ _ _ h120]
      simp
    · cases fetch with
      | error e =>
        rw [wait_go_step_err e d rest t proc h120]
        obtain ⟨ih1, ih2, ih3⟩ := ih (t + d) proc
        exact ⟨ih1, ih2, ih3⟩
      | ok msgs =>
        cases msgs with
        | nil =>
          rw [wait_go_step_emptyInbox d rest t proc h120]
          obtain ⟨ih1, ih2, ih3⟩ := ih (t + d + 3) proc
          exact ⟨ih1, ih2, ih3⟩
        | cons latest tail =>
          by_cases hmem : latest.id ∈ proc
          · rw [wait_go_step_dup latest tail d rest t proc h120 hmem]
            obtain ⟨ih1, ih2, ih3⟩ := ih (t + d + 3) proc
            exact ⟨ih1, ih2, ih3⟩
          · cases hex : extract_message latest with
            | some code =>
              rw [wait_go_step_found latest tail d rest t proc code h120
                hmem hex]
              refine ⟨fun x hx => List.mem_cons_of_mem _ hx, ?_, ?_⟩
              · simp
              · intro x hx
                simp only [List.mem_singleton] at hx
                subst hx
                exact hmem
            | none =>
              rw [wait_go_step_fresh latest tail d rest t proc h120 hmem hex]
              obtain ⟨ih1, ih2, ih3⟩ := ih (t + d + 3) (latest.id :: proc)
              refine ⟨?_, ?_, ?_⟩
              · intro x hx
                exact ih1 x (List.mem_cons_of_mem _ hx)
              · refine List.Nodup.cons ?_ ih2
                intro hin
                exact ih3 latest.id hin (List.mem_cons_self _ _)
              · intro x hx
                rcases List.mem_cons.mp hx with h | h
                · subst h; exact hmem
                · intro hxp
                  exact ih3 x h (List.mem_cons_of_mem _ hxp)

/-- Witness for C3: with the id "m1" reappearing as the newest message
over three cycles, extraction is invoked exactly once and "m1" ends in
the processed set. -/
theorem poll_dedup_invariants_witness :
    (wait_go c3Cycles 0 ["old"]).invoked.Nodup ∧
    ("old" ∈ (wait_go c3Cycles 0 ["old"]).processed) ∧
    (wait_go c3Cycles 0 ["old"]).invoked = ["m1"] := by
  have h := poll_dedup_invariants c3Cycles 0 ["old"]
  refine ⟨h.2.1, h.1 "old" (by decide), by decide⟩

theorem wait_go_starts_lt (cycles : List PollCycle) (t : Nat)
    (proc : List String) :
    ∀ s ∈ (wait_go cycles t proc).starts, s < 120 := by
  induction cycles generalizing t proc with
  | nil => simp [wait_go]
  | cons c rest ih =>
    obtain ⟨fetch, d⟩ := c
    by_cases h120 : 120 ≤ t
    · rw [wait_go_budget _ _ _ h120]
      simp
    · cases fetch with
      | error e =>
        rw [wait_go_step_err e d rest t proc h120]
        intro s hs
        rcases List.mem_cons.mp hs with h | h
        · omega
        · exact ih (t + d) proc s h
      | ok msgs =>
        cases msgs with
        | nil =>
          rw [wait_go_step_emptyInbox d rest t proc h120]
          intro s hs
          rcases List.mem_cons.mp hs with h | h
          · omega
          · exact ih (t + d + 3) proc s h
        | cons latest tail =>
          by_cases hmem : latest.id ∈ proc
          · rw [wait_go_step_dup latest tail d rest t proc h120 hmem]
            intro s hs
            rcases List.mem_cons.mp hs with h | h
            · omega
            · exact ih (t + d + 3) proc s h
          · cases hex : extract_message latest with
            | some code =>
              rw [wait_go_step_found latest tail d rest t proc code h120
                hmem hex]
              intro s hs
              rcases List.mem_cons.mp hs with h | h
              · omega
              · simp at h
            | none =>
              rw [wait_go_step_fresh latest tail d rest t proc h120 hmem hex]
              intro s hs
              rcases List.mem_cons.mp hs with h | h
              · omega
              · exact ih (t + d + 3) (latest.id :: proc) s h

theorem wait_go_accounting (cycles : List PollCycle) (t : Nat)
    (proc : List String) :
    (wait_go cycles t proc).elapsed =
      t + cycleDurSum (cycles.take (wait_go cycles t proc).starts.length) +
        3 * (wait_go cycles t proc).sleeps ∧
    (wait_go cycles t proc).sleeps +
      (cycles.take (wait_go cycles t proc).starts.length).countP isFetchErr +
      (if (wait_go cycles t proc).code.isSome then 1 else 0) =
      (wait_go cycles t proc).starts.length := by
  induction cycles generalizing t proc with
  | nil => simp [wait_go, cycleDurSum]
  | cons c rest ih =>
    obtain ⟨fetch, d⟩ := c
    by_cases h120 : 120 ≤ t
    · rw [wait_go_budget _ _ _ h120]
      simp [cycleDurSum]
    · cases fetch with
      | error e =>
        rw [wait_go_step_err e d rest t proc h120]
        obtain ⟨ih1, ih2⟩ := ih (t + d) proc
        have herr : isFetchErr ⟨Except.error e, d⟩ = true := rfl
        simp [cycleDurSum] at ih1 ih2
        simp [pollErrStep, List.take_succ_cons, List.countP_cons, herr,
          cycleDurSum]
        constructor
        · omega
        · omega
      | ok msgs =>
        cases msgs with
        | nil =>
          rw [wait_go_step_emptyInbox d rest t proc h120]
          obtain ⟨ih1, ih2⟩ := ih (t + d + 3) proc
          have hok : isFetchErr ⟨Except.ok ([] : List InboxMessage), d⟩
              = false := rfl
          simp [cycleDurSum] at ih1 ih2
          simp [pollSleepStep, List.take_succ_cons, List.countP_cons, hok,
            cycleDurSum]
          constructor
          · omega
          · omega
        | cons latest tail =>
          have hok : isFetchErr ⟨Except.ok (latest :: tail), d⟩
              = false := rfl
          by_cases hmem : latest.id ∈ proc
          · rw [wait_go_step_dup latest tail d rest t proc h120 hmem]
            obtain ⟨ih1, ih2⟩ := ih (t + d + 3) proc
            simp [cycleDurSum] at ih1 ih2
            simp [pollSleepStep, List.take_succ_cons, List.countP_cons, hok,
              cycleDurSum]
            constructor
            · omega
            · omega
          · cases hex : extract_message latest with
            | some code =>
              rw [wait_go_step_found latest tail d rest t proc code h120
                hmem hex]
              exact ⟨rfl, rfl⟩
            | none =>
              rw [wait_go_step_fresh latest tail d rest t proc h120 hmem hex]
              obtain ⟨ih1, ih2⟩ := ih (t + d + 3) (latest.id :: proc)
              simp [cycleDurSum] at ih1 ih2
              simp [pollInvokeStep, List.take_succ_cons, List.countP_cons,
                hok, cycleDurSum]
              constructor
              · omega
              · omega

theorem wait_go_code_from_message (cycles : List PollCycle) (t : Nat)
    (proc : List String) (code : String)
    (h : (wait_go cycles t proc).code = some code) :
    ∃ c ∈ cycles, ∃ msgs, c.fetch = .ok msgs ∧
      ∃ m tail, msgs = m :: tail ∧ extract_message m = some code := by
  induction cycles generalizing t proc with
  | nil => simp [wait_go] at h
  | cons c rest ih =>
    obtain ⟨fetch, d⟩ := c
    by_cases h120 : 120 ≤ t
    · rw [wait_go_budget _ _ _ h120] at h
      simp at h
    · cases fetch with
      | error e =>
        rw [wait_go_step_err e d rest t proc h120] at h
        obtain ⟨c', hc', rest'⟩ := ih (t + d) proc h
        exact ⟨c', List.mem_cons_of_mem _ hc', rest'⟩
      | ok msgs =>
        cases msgs with
        | nil =>
          rw [wait_go_step_emptyInbox d rest t proc h120] at h
          obtain ⟨c', hc', rest'⟩ := ih (t + d + 3) proc h
          exact ⟨c', List.mem_cons_of_mem _ hc', rest'⟩
        | cons latest tail =>
          by_cases hmem : latest.id ∈ proc
          · rw [wait_go_step_dup latest tail d rest t proc h120 hmem] at h
            obtain ⟨c', hc', rest'⟩ := ih (t + d + 3) proc h
            exact ⟨c', List.mem_cons_of_mem _ hc', rest'⟩
          · cases hex : extract_message latest with
            | some found =>
              rw [wait_go_step_found latest tail d rest t proc found h120
                hmem hex] at h
              have h' : some found = some code := h
              cases h'
              exact ⟨⟨Except.ok (latest :: tail), d⟩, List.mem_cons_self _ _,
                latest :: tail, rfl, latest, tail, rfl, hex⟩
            | none =>
              rw [wait_go_step_fresh latest tail d rest t proc h120
                hmem hex] at h
              obtain ⟨c', hc', rest'⟩ :=
                ih (t + d + 3) (latest.id :: proc) h
              exact ⟨c', List.mem_cons_of_mem _ hc', rest'⟩

/-- C4 counterexample.  The claim says a transient fetch error is
"retried on the next 3-second interval", but the `time.sleep(3)` sits
inside the `try` block, so a fetch error skips it: here the first fetch
(starting at 0, lasting 1 second) errors, and the second fetch starts
at elapsed time 1 — strictly earlier than the 3-second interval
(0 + 1 + 3 = 4) the claim requires. -/
theorem wait_for_code_retry_interval_cex :
    (wait_go [⟨Except.error PyErr.exception, 1⟩, ⟨Except.ok [], 5⟩]
      0 []).starts = [0, 1] ∧ ¬ (0 + 1 + 3 ≤ 1) := by decide

/-- C4 (amended).  The poll loop never lets a backend failure escape
(errors are swallowed and the loop retries immediately, with no sleep
on the error path), every fetch starts strictly inside the 120-second
budget, the elapsed time is the fetch durations plus 3 seconds for
exactly the executed cycles that neither errored nor returned a code,
and a returned code always comes from the newest message of some
successfully fetched cycle (so with no extractable message the result
is `none`, and with the budget already spent the loop exits at once
with `none`). -/
theorem wait_for_code_loop_behavior (cycles : List PollCycle) (t : Nat)
    (proc : List String) :
    (120 ≤ t → wait_go cycles t proc = ⟨none, t, proc, [], [], 0⟩) ∧
    (∀ s ∈ (wait_go cycles t proc).starts, s < 120) ∧
    ((wait_go cycles t proc).elapsed =
      t + cycleDurSum (cycles.take (wait_go cycles t proc).starts.length) +
        3 * (wait_go cycles t proc).sleeps) ∧
    ((wait_go cycles t proc).sleeps +
      (cycles.take (wait_go cycles t proc).starts.length).countP isFetchErr +
      (if (wait_go cycles t proc).code.isSome then 1 else 0) =
      (wait_go cycles t proc).starts.length) ∧
    (∀ code, (wait_go cycles t proc).code = some code →
      ∃ c ∈ cycles, ∃ msgs, c.fetch = .ok msgs ∧
        ∃ m tail, msgs = m :: tail ∧ extract_message m = some code) := by
  refine ⟨fun h => wait_go_budget cycles t proc h,
    wait_go_starts_lt cycles t proc,
    (wait_go_accounting cycles t proc).1,
    (wait_go_accounting cycles t proc).2,
    fun code h => wait_go_code_from_message cycles t proc code h⟩

/-- Witness for the amended C4 theorem at concrete inputs: an exhausted
budget returns `none` immediately, and on the two-cycle trace the first
fetch starts inside the budget. -/
theorem wait_for_code_loop_behavior_witness :
    wait_go c4Cycles 130 ["x"] = ⟨none, 130, ["x"], [], [], 0⟩ ∧
    (0 : Nat) < 120 := by
  have h130 := wait_for_code_loop_behavior c4Cycles 130 ["x"]
  have h0 := wait_for_code_loop_behavior c4Cycles 0 []
  exact ⟨h130.1 (by norm_num), h0.2.1 0 (by decide)⟩

theorem selectClientKey_eq (cookies : List Cookie) (acc : Option String) :
    selectClientKey cookies acc =
      (match cookies.reverse.find? (fun c => decide (c.name = "__client")) with
       | some c => some c.value
       | none => acc) := by
  induction cookies generalizing acc with
  | nil => rfl
  | cons c rest ih =>
    rw [selectClientKey, ih, List.reverse_cons, List.find?_append]
    cases hfind : rest.reverse.find? (fun c => decide (c.name = "__client")) with
    | some c' => simp
    | none =>
      by_cases hname : c.name = "__client"
      · simp [List.find?, hname]
      · simp [List.find?, hname]

/-- C2 counterexample.  With the clerk-domain cookie listed first and a
non-clerk `__client` cookie after it, the selection returns the
non-clerk cookie's value, not the clerk one's — the claim's
"regardless of the order" selection of the clerk-domain cookie is
false. -/
theorem credential_selection_cex :
    str_contains "clerk.orchids.app" "clerk" = true ∧
    str_contains "www.orchids.app" "clerk" = false ∧
    select_client_key c2Cookies = some "other-value" ∧
    ¬ select_client_key c2Cookies = some "clerk-value" := by decide

/-- C2 (amended).  The extraction step selects the value of the last
cookie named `__client` in iteration order, regardless of domain: the
`'clerk' in domain` check only logs.  (So the clerk-domain cookie is
selected exactly when it is the last `__client` cookie.) -/
theorem credential_selection_last_wins (cookies : List Cookie) :
    select_client_key cookies =
      (cookies.reverse.find?
        (fun c => decide (c.name = "__client"))).map Cookie.value := by
  rw [select_client_key, selectClientKey_eq]
  cases hfind : cookies.reverse.find? (fun c => decide (c.name = "__client")) with
  | some c => rfl
  | none => rfl

/-- C6.  Publisher contract: with an empty server URL the publish is a
no-op success (only the reporting line is printed); with a server URL it
succeeds exactly for HTTP 200 or 201 (an exception, modelled as `none`,
or any other status is failure); and the attempt-level outcome of the
credential phase is the selection's success, independent of the publish
outcome. -/
theorem publisher_contract :
    (∀ k p, upload_to_server k "" p =
      (true, [Event.printedClientKey k])) ∧
    (∀ k url p, ¬ url = "" →
      ((upload_to_server k url p).fst = true ↔
        (p = some 200 ∨ p = some 201))) ∧
    (∀ cookies url p, (credential_phase cookies url p).fst =
      (select_client_key cookies).isSome) := by
  refine ⟨?_, ?_, ?_⟩
  · intro k p
    simp [upload_to_server]
  · intro k url p hurl
    simp only [upload_to_server, if_neg hurl]
    cases p with
    | none => simp
    | some status =>
      by_cases hs : status = 200 ∨ status = 201
      · simp [hs]
      · simp only [if_neg hs]
        constructor
        · intro hfalse; cases hfalse
        · intro hps
          exfalso
          apply hs
          rcases hps with h | h
          · exact Or.inl (Option.some.inj h)
          · exact Or.inr (Option.some.inj h)
  · intro cookies url p
    rw [credential_phase]
    cases hsel : select_client_key cookies with
    | some key => simp
    | none => simp

/-- Witness for C6 at concrete inputs: an empty URL is a no-op success,
status 201 is success, status 500 and a raised exception are failures,
and the credential phase reports the selection outcome. -/
theorem publisher_contract_witness :
    upload_to_server "tok" "" (some 500) =
      (true, [Event.printedClientKey "tok"]) ∧
    (upload_to_server "tok" "http://s" (some 201)).fst = true ∧
    ¬ (upload_to_server "tok" "http://s" (some 500)).fst = true ∧
    ¬ (upload_to_server "tok" "http://s" none).fst = true ∧
    (credential_phase c2Cookies "http://s" none).fst = true := by
  refine ⟨publisher_contract.1 "tok" (some 500), ?_, ?_, ?_, ?_⟩
  · exact (publisher_contract.2.1 "tok" "http://s" (some 201)
      (by decide)).mpr (Or.inr rfl)
  · intro hcontra
    rcases (publisher_contract.2.1 "tok" "http://s" (some 500)
      (by decide)).mp hcontra with h | h
    · cases h
    · cases h
  · intro hcontra
    rcases (publisher_contract.2.1 "tok" "http://s" none
      (by decide)).mp hcontra with h | h
    · cases h
    · cases h
  · rw [publisher_contract.2.2 c2Cookies "http://s" none]
    decide

theorem challenge_go_step_absent (check turn : Nat → Except PyErr Bool)
    (i r : Nat) (hc : check i = .ok false) :
    challenge_go check turn i (r + 1) =
      ((challenge_go check turn (i + 1) r).fst,
       (challenge_go check turn (i + 1) r).snd.fst,
       Event.slept 2 :: (challenge_go check turn (i + 1) r).snd.snd) := by
  rw [challenge_go, hc]

theorem challenge_go_all_absent (check turn : Nat → Except PyErr Bool)
    (rem i : Nat) (h : ∀ k, i ≤ k → k < i + rem → check k = .ok false) :
    challenge_go check turn i rem =
      (.ok false, i + rem, List.replicate rem (Event.slept 2)) := by
  induction rem generalizing i with
  | zero => simp [challenge_go]
  | succ r ih =>
    rw [challenge_go_step_absent check turn i r (h i (Nat.le_refl i) (by omega)),
      ih (i + 1) (fun k hk1 hk2 => h k (by omega) (by omega))]
    dsimp only
    simp only [List.replicate_succ, Prod.mk.injEq, true_and, and_true]
    omega

/-- C8.  Bounded challenge-clearing loop: when the numeric code field
never appears in the 15 probed iterations, the loop performs exactly 15
iterations (15 field checks and 15 two-second sleeps), terminates with
`pass_check = False` rather than throwing, and the attempt then returns
`False` (the challenge-timeout failure). -/
theorem challenge_loop_bounded (check turn : Nat → Except PyErr Bool)
    (h : ∀ k, k < 15 → check k = Except.ok false) :
    challenge_go check turn 0 15 =
      (Except.ok false, 15, List.replicate 15 (Event.slept 2)) ∧
    verify_phase check turn =
      (StepRes.retFalse, List.replicate 15 (Event.slept 2)) ∧
    (∀ env closeRaises em, env.depsAvailable = true →
      env.chromeStart = .ok () → env.navigate = .ok () →
      env.signInClick = .ok () → env.welcomeVisible = .ok () →
      env.signUpClick = .ok () → env.emailFieldVisible = .ok () →
      env.tempEmail = some em → env.fillEmail = .ok () →
      env.fillPassword = .ok () → env.continueClick = .ok () →
      env.codeFieldCheck = check → env.turnstile = turn →
      (register_one_account env closeRaises).fst = Except.ok false) := by
  have hg := challenge_go_all_absent check turn 15 0
    (fun k hk1 hk2 => h k (by omega))
  have hg' : challenge_go check turn 0 15 =
      (Except.ok false, 15, List.replicate 15 (Event.slept 2)) := by
    simpa using hg
  have hv : verify_phase check turn =
      (StepRes.retFalse, List.replicate 15 (Event.slept 2)) := by
    rw [verify_phase, hg']
    rfl
  refine ⟨hg', hv, ?_⟩
  intro env closeRaises em hdeps hchrome hnav hsi hw hsu hef hte hfe hfp
    hcc hcf ht
  have hnavp : nav_phase env = (.ok (), [Event.slept 3]) := by
    unfold nav_phase sign_in_step sign_up_step
    rw [hnav, hsi, hw, hsu]
    rfl
  have hformp : form_phase env = (.ok (), []) := by
    unfold form_phase continue_step
    rw [hef, hte, hfe, hfp, hcc]
  have hatt : (attempt_try env).fst = Except.ok false := by
    unfold attempt_try
    rw [hchrome, hnavp, hformp, hcf, ht, hv]
  rw [register_one_account, if_neg (by simp [hdeps])]
  dsimp only
  rw [hatt]
  rfl

/-- Witness for C8: with the field always absent the loop runs its 15
iterations, the phase reports the timeout, and the concrete stuck
attempt returns `False`. -/
theorem challenge_loop_bounded_witness :
    challenge_go constFalseCheck constOkTurn 0 15 =
      (Except.ok false, 15, List.replicate 15 (Event.slept 2)) ∧
    verify_phase constFalseCheck constOkTurn =
      (StepRes.retFalse, List.replicate 15 (Event.slept 2)) ∧
    (register_one_account envChallengeStuck false).fst =
      Except.ok false := by
  have h := challenge_loop_bounded constFalseCheck constOkTurn
    (fun k hk => rfl)
  refine ⟨h.1, h.2.1, ?_⟩
  exact h.2.2 envChallengeStuck false "a@b.test" rfl rfl rfl rfl rfl rfl
    rfl rfl rfl rfl rfl rfl rfl

/-- C9.  Browser session release: on every terminal path of an attempt
— normal return (success or failure) or a propagating exception — if a
session was created then the close is invoked before the attempt
returns, and the close's own failure never changes the attempt's
outcome (the `finally`'s inner bare `except` swallows it). -/
theorem browser_session_released (env : Env) (closeRaises : Bool) :
    (Event.created ∈ (register_one_account env closeRaises).snd →
      Event.closed ∈ (register_one_account env closeRaises).snd) ∧
    (∀ b, register_one_account env b =
      register_one_account env closeRaises) := by
  constructor
  · intro hc
    rw [register_one_account] at hc ⊢
    by_cases hdeps : env.depsAvailable = false
    · rw [if_pos hdeps] at hc
      simp at hc
    · rw [if_neg hdeps] at hc ⊢
      dsimp only at hc ⊢
      by_cases hcr : Event.created ∈ (attempt_try env).snd
      · rw [if_pos hcr]
        simp [close_driver]
      · rw [if_neg hcr] at hc
        rw [List.append_nil] at hc
        exact absurd hc hcr
  · intro b
    simp [register_one_account, close_driver]

/-- Witness for C9: in the all-success environment the session is
created, and the theorem yields that it is closed. -/
theorem browser_session_released_witness :
    Event.closed ∈ (register_one_account envSuccess false).snd := by
  exact (browser_session_released envSuccess false).1 (by decide)

theorem printCount_cons_slept (n : Nat) (evs : List Event) :
    printCount (Event.slept n :: evs) = printCount evs := by
  simp [printCount, List.countP_cons, is_client_key_print]

theorem printCount_cons_created (evs : List Event) :
    printCount (Event.created :: evs) = printCount evs := by
  simp [printCount, List.countP_cons, is_client_key_print]

theorem printCount_append (a b : List Event) :
    printCount (a ++ b) = printCount a + printCount b := by
  simp [printCount, List.countP_append]

theorem username_step_events (env : Env) : username_step env = [] := by
  unfold username_step
  by_cases h : env.urlStillSignUp = true
  · rw [if_pos h]
  · rw [if_neg h]

theorem upload_to_server_events (k url : String) (p : Option Nat) :
    (upload_to_server k url p).snd = [Event.printedClientKey k] := by
  by_cases hurl : url = ""
  · simp [upload_to_server, hurl]
  · cases p with
    | none => simp [upload_to_server, hurl]
    | some status =>
      by_cases hs : status = 200 ∨ status = 201
      · simp [upload_to_server, hurl, hs]
      · simp [upload_to_server, hurl, hs]

theorem credential_phase_events (cookies : List Cookie) (url : String)
    (p : Option Nat) :
    (credential_phase cookies url p).snd =
      (match select_client_key cookies with
       | some k => [Event.printedClientKey k]
       | none => []) := by
  unfold credential_phase
  cases hsel : select_client_key cookies with
  | some k =>
    show (upload_to_server k url p).snd = [Event.printedClientKey k]
    exact upload_to_server_events k url p
  | none => rfl

theorem credential_phase_success (cookies : List Cookie) (url : String)
    (p : Option Nat) :
    (credential_phase cookies url p).fst =
      (select_client_key cookies).isSome := by
  unfold credential_phase
  cases hsel : select_client_key cookies with
  | some k => rfl
  | none => rfl

theorem sign_in_step_no_print (env : Env) :
    printCount (sign_in_step env).snd = 0 := by
  unfold sign_in_step
  cases env.signInClick with
  | ok a => rfl
  | error e =>
    cases e with
    | exception =>
      cases env.gotoSignIn with
      | ok a => rfl
      | error e2 => rfl
    | baseException => rfl

theorem sign_up_step_no_print (env : Env) :
    printCount (sign_up_step env).snd = 0 := by
  unfold sign_up_step
  cases env.signUpClick with
  | ok a => rfl
  | error e =>
    cases env.gotoSignUp with
    | ok a => rfl
    | error e2 => rfl

theorem continue_step_no_print (env : Env) :
    printCount (continue_step env).snd = 0 := by
  unfold continue_step
  cases env.continueClick with
  | ok a => rfl
  | error e =>
    cases env.passwordSubmit with
    | ok a => rfl
    | error e2 => rfl

theorem nav_phase_no_print (env : Env) :
    printCount (nav_phase env).snd = 0 := by
  unfold nav_phase
  cases env.navigate with
  | error e => rfl
  | ok a =>
    rcases hsi : sign_in_step env with ⟨r1, evs1⟩
    have h1 := sign_in_step_no_print env
    rw [hsi] at h1
    cases r1 with
    | error e =>
      show printCount (Event.slept 3 :: evs1) = 0
      rw [printCount_cons_slept]
      exact h1
    | ok a1 =>
      cases env.welcomeVisible with
      | error e =>
        show printCount (Event.slept 3 :: evs1) = 0
        rw [printCount_cons_slept]
        exact h1
      | ok a2 =>
        rcases hsu : sign_up_step env with ⟨r2, evs2⟩
        have h2 := sign_up_step_no_print env
        rw [hsu] at h2
        cases r2 with
        | error e =>
          show printCount (Event.slept 3 :: (evs1 ++ evs2)) = 0
          rw [printCount_cons_slept, printCount_append, h1, h2]
        | ok a3 =>
          show printCount (Event.slept 3 :: (evs1 ++ evs2)) = 0
          rw [printCount_cons_slept, printCount_append, h1, h2]

theorem form_phase_no_print (env : Env) :
    printCount (form_phase env).snd = 0 := by
  unfold form_phase
  cases env.emailFieldVisible with
  | error e => rfl
  | ok a =>
    cases env.tempEmail with
    | none => rfl
    | some em =>
      cases env.fillEmail with
      | error e => rfl
      | ok a2 =>
        cases env.fillPassword with
        | error e => rfl
        | ok a3 =>
          rcases hcs : continue_step env with ⟨r, evs⟩
          have h0 := continue_step_no_print env
          rw [hcs] at h0
          cases r with
          | error e => exact h0
          | ok a4 => exact h0

theorem challenge_go_no_print (check turn : Nat → Except PyErr Bool)
    (r i : Nat) : printCount (challenge_go check turn i r).snd.snd = 0 := by
  induction r generalizing i with
  | zero => rfl
  | succ n ih =>
    rw [challenge_go]
    cases check i with
    | error e => rfl
    | ok b =>
      cases b with
      | true => rfl
      | false =>
        show printCount
          (Event.slept 2 :: (challenge_go check turn (i + 1) n).snd.snd) = 0
        rw [printCount_cons_slept]
        exact ih (i + 1)

theorem verify_phase_no_print (check turn : Nat → Except PyErr Bool) :
    printCount (verify_phase check turn).snd = 0 := by
  unfold verify_phase
  rcases hg : challenge_go check turn 0 15 with ⟨r, n, evs⟩
  have h0 := challenge_go_no_print check turn 15 0
  rw [hg] at h0
  cases r with
  | error e => exact h0
  | ok pass =>
    cases pass with
    | true => exact h0
    | false => exact h0

theorem code_phase_print (env : Env) :
    printCount (code_phase env).snd =
      (if (code_phase env).fst = StepRes.ok true then 1 else 0) := by
  unfold code_phase
  cases env.otpPresent with
  | error e => rfl
  | ok a =>
    cases (wait_for_code env.pollCycles).code with
    | none => rfl
    | some code =>
      cases env.typeCode with
      | error e => rfl
      | ok a2 =>
        rw [username_step_events]
        cases hcr : cookie_read env with
        | error e => rfl
        | ok cookies =>
          show printCount (Event.slept 5 ::
              ([] ++ (credential_phase cookies env.serverUrl
                env.postResult).snd)) =
            (if StepRes.ok (credential_phase cookies env.serverUrl
                env.postResult).fst = StepRes.ok true then 1 else 0)
          rw [printCount_cons_slept, List.nil_append,
            credential_phase_events, credential_phase_success]
          cases hsel : select_client_key cookies with
          | some k => rfl
          | none => rfl

theorem attempt_try_eq_chromeErr (env : Env) (e : PyErr)
    (hc : env.chromeStart = .error e) :
    attempt_try env = (.error e, []) := by
  unfold attempt_try
  rw [hc]

theorem attempt_try_eq_navErr (env : Env) (e : PyErr) (evs1 : List Event)
    (hc : env.chromeStart = .ok ())
    (h1 : nav_phase env = (.error e, evs1)) :
    attempt_try env = (.error e, Event.created :: evs1) := by
  unfold attempt_try
  rw [hc, h1]

theorem attempt_try_eq_formErr (env : Env) (e : PyErr)
    (evs1 evs2 : List Event) (hc : env.chromeStart = .ok ())
    (h1 : nav_phase env = (.ok (), evs1))
    (h2 : form_phase env = (.err e, evs2)) :
    attempt_try env = (.error e, Event.created :: (evs1 ++ evs2)) := by
  unfold attempt_try
  rw [hc, h1, h2]

theorem attempt_try_eq_formRet (env : Env) (evs1 evs2 : List Event)
    (hc : env.chromeStart = .ok ())
    (h1 : nav_phase env = (.ok (), evs1))
    (h2 : form_phase env = (.retFalse, evs2)) :
    attempt_try env = (.ok false, Event.created :: (evs1 ++ evs2)) := by
  unfold attempt_try
  rw [hc, h1, h2]

theorem attempt_try_eq_verifyErr (env : Env) (e : PyErr)
    (evs1 evs2 evs3 : List Event) (hc : env.chromeStart = .ok ())
    (h1 : nav_phase env = (.ok (), evs1))
    (h2 : form_phase env = (.ok (), evs2))
    (h3 : verify_phase env.codeFieldCheck env.turnstile = (.err e, evs3)) :
    attempt_try env = (.error e, Event.created :: (evs1 ++ evs2 ++ evs3)) := by
  unfold attempt_try
  rw [hc, h1, h2, h3]

theorem attempt_try_eq_verifyRet (env : Env) (evs1 evs2 evs3 : List Event)
    (hc : env.chromeStart = .ok ())
    (h1 : nav_phase env = (.ok (), evs1))
    (h2 : form_phase env = (.ok (), evs2))
    (h3 : verify_phase env.codeFieldCheck env.turnstile =
      (.retFalse, evs3)) :
    attempt_try env = (.ok false, Event.created :: (evs1 ++ evs2 ++ evs3)) := by
  unfold attempt_try
  rw [hc, h1, h2, h3]

theorem attempt_try_eq_codeErr (env : Env) (e : PyErr)
    (evs1 evs2 evs3 evs4 : List Event) (hc : env.chromeStart = .ok ())
    (h1 : nav_phase env = (.ok (), evs1))
    (h2 : form_phase env = (.ok (), evs2))
    (h3 : verify_phase env.codeFieldCheck env.turnstile = (.ok (), evs3))
    (h4 : code_phase env = (.err e, evs4)) :
    attempt_try env =
      (.error e, Event.created :: (evs1 ++ evs2 ++ evs3 ++ evs4)) := by
  unfold attempt_try
  rw [hc, h1, h2, h3, h4]

theorem attempt_try_eq_codeRet (env : Env)
    (evs1 evs2 evs3 evs4 : List Event) (hc : env.chromeStart = .ok ())
    (h1 : nav_phase env = (.ok (), evs1))
    (h2 : form_phase env = (.ok (), evs2))
    (h3 : verify_phase env.codeFieldCheck env.turnstile = (.ok (), evs3))
    (h4 : code_phase env = (.retFalse, evs4)) :
    attempt_try env =
      (.ok false, Event.created :: (evs1 ++ evs2 ++ evs3 ++ evs4)) := by
  unfold attempt_try
  rw [hc, h1, h2, h3, h4]

theorem attempt_try_eq_codeOk (env : Env) (success : Bool)
    (evs1 evs2 evs3 evs4 : List Event) (hc : env.chromeStart = .ok ())
    (h1 : nav_phase env = (.ok (), evs1))
    (h2 : form_phase env = (.ok (), evs2))
    (h3 : verify_phase env.codeFieldCheck env.turnstile = (.ok (), evs3))
    (h4 : code_phase env = (.ok success, evs4)) :
    attempt_try env =
      (.ok success, Event.created :: (evs1 ++ evs2 ++ evs3 ++ evs4)) := by
  unfold attempt_try
  rw [hc, h1, h2, h3, h4]

theorem attempt_try_print (env : Env) :
    printCount (attempt_try env).snd =
      (if (attempt_try env).fst = Except.ok true then 1 else 0) := by
  cases hc : env.chromeStart with
  | error e =>
    rw [attempt_try_eq_chromeErr env e hc]
    rfl
  | ok a =>
    cases a
    rcases hnp : nav_phase env with ⟨r1, evs1⟩
    have h1 := nav_phase_no_print env
    rw [hnp] at h1
    cases r1 with
    | error e =>
      rw [attempt_try_eq_navErr env e evs1 hc hnp]
      show printCount (Event.created :: evs1) = 0
      rw [printCount_cons_created]
      exact h1
    | ok a1 =>
      cases a1
      rcases hfp : form_phase env with ⟨r2, evs2⟩
      have h2 := form_phase_no_print env
      rw [hfp] at h2
      cases r2 with
      | err e =>
        rw [attempt_try_eq_formErr env e evs1 evs2 hc hnp hfp]
        show printCount (Event.created :: (evs1 ++ evs2)) = 0
        rw [printCount_cons_created, printCount_append, h1, h2]
      | retFalse =>
        rw [attempt_try_eq_formRet env evs1 evs2 hc hnp hfp]
        show printCount (Event.created :: (evs1 ++ evs2)) = 0
        rw [printCount_cons_created, printCount_append, h1, h2]
      | ok a2 =>
        cases a2
        rcases hvp : verify_phase env.codeFieldCheck env.turnstile
          with ⟨r3, evs3⟩
        have h3 := verify_phase_no_print env.codeFieldCheck env.turnstile
        rw [hvp] at h3
        cases r3 with
        | err e =>
          rw [attempt_try_eq_verifyErr env e evs1 evs2 evs3 hc hnp hfp hvp]
          show printCount (Event.created :: (evs1 ++ evs2 ++ evs3)) = 0
          rw [printCount_cons_created, printCount_append, printCount_append,
            h1, h2, h3]
        | retFalse =>
          rw [attempt_try_eq_verifyRet env evs1 evs2 evs3 hc hnp hfp hvp]
          show printCount (Event.created :: (evs1 ++ evs2 ++ evs3)) = 0
          rw [printCount_cons_created, printCount_append, printCount_append,
            h1, h2, h3]
        | ok a3 =>
          cases a3
          rcases hcp : code_phase env with ⟨r4, evs4⟩
          have h4 := code_phase_print env
          rw [hcp] at h4
          cases r4 with
          | err e =>
            rw [attempt_try_eq_codeErr env e evs1 evs2 evs3 evs4 hc hnp
              hfp hvp hcp]
            show printCount
              (Event.created :: (evs1 ++ evs2 ++ evs3 ++ evs4)) = 0
            rw [printCount_cons_created, printCount_append,
              printCount_append, printCount_append, h1, h2, h3]
            simpa using h4
          | retFalse =>
            rw [attempt_try_eq_codeRet env evs1 evs2 evs3 evs4 hc hnp
              hfp hvp hcp]
            show printCount
              (Event.created :: (evs1 ++ evs2 ++ evs3 ++ evs4)) = 0
            rw [printCount_cons_created, printCount_append,
              printCount_append, printCount_append, h1, h2, h3]
            simpa using h4
          | ok success =>
            rw [attempt_try_eq_codeOk env success evs1 evs2 evs3 evs4 hc
              hnp hfp hvp hcp]
            show printCount
                (Event.created :: (evs1 ++ evs2 ++ evs3 ++ evs4)) =
              (if (Except.ok success : Except PyErr Bool) = Except.ok true
               then 1 else 0)
            rw [printCount_cons_created, printCount_append,
              printCount_append, printCount_append, h1, h2, h3]
            cases success with
            | true => simpa using h4
            | false => simpa using h4

/-- C10.  Reporting channel: an attempt emits exactly one
`CLIENT_KEY:<value>` line when and only when it returns success (which
happens exactly when a credential was extracted), and the
credential/publish step prints the line carrying the selected value
exactly once for every server URL and publish outcome — including an
empty URL or a failing POST. -/
theorem client_key_reporting (env : Env) (closeRaises : Bool) :
    printCount (register_one_account env closeRaises).snd =
      (if (register_one_account env closeRaises).fst = Except.ok true
       then 1 else 0) ∧
    (∀ cookies url p k, select_client_key cookies = some k →
      Event.printedClientKey k ∈ (credential_phase cookies url p).snd ∧
      printCount (credential_phase cookies url p).snd = 1) := by
  constructor
  · rw [register_one_account]
    by_cases hdeps : env.depsAvailable = false
    · rw [if_pos hdeps]
      rfl
    · rw [if_neg hdeps]
      dsimp only
      rw [printCount_append]
      have hclose : printCount
          (if Event.created ∈ (attempt_try env).snd
           then close_driver closeRaises else []) = 0 := by
        split
        · rfl
        · rfl
      rw [hclose, attempt_try_print env, Nat.add_zero]
      rcases hfst : (attempt_try env).fst with e | bb
      · cases e with
        | exception => rfl
        | baseException => rfl
      · cases bb with
        | true => rfl
        | false => rfl
  · intro cookies url p k hsel
    constructor
    · rw [credential_phase_events, hsel]
      exact List.mem_singleton.mpr rfl
    · rw [credential_phase_events, hsel]
      rfl

/-- Witness for C10: the all-success attempt prints the line exactly
once, and the concrete clerk cookie set prints its value even when the
POST returns status 500. -/
theorem client_key_reporting_witness :
    printCount (register_one_account envSuccess false).snd = 1 ∧
    Event.printedClientKey "tok_abc" ∈
      (credential_phase [⟨"__client", "clerk.orchids.app", "tok_abc"⟩]
        "http://s" (some 500)).snd := by
  have h := client_key_reporting envSuccess false
  constructor
  · rw [h.1]
    decide
  · exact (h.2 [⟨"__client", "clerk.orchids.app", "tok_abc"⟩] "http://s"
      (some 500) "tok_abc" (by decide)).1

theorem main_go_spec (pairs : List (Env × Bool)) (succ started : Nat)
    (h : ∀ p ∈ pairs, attempt_completed p = true) :
    main_go pairs succ started =
      Except.ok (succ + pairs.countP attempt_succeeded,
        started + pairs.length,
        if 0 < succ + pairs.countP attempt_succeeded then 0 else 1) := by
  induction pairs generalizing succ started with
  | nil => simp [main_go]
  | cons p rest ih =>
    have hp := h p (List.mem_cons_self _ _)
    have hrest : ∀ q ∈ rest, attempt_completed q = true :=
      fun q hq => h q (List.mem_cons_of_mem _ hq)
    rw [main_go]
    unfold attempt_completed at hp
    rcases hfst : (register_one_account p.fst p.snd).fst with e | bb
    · rw [hfst] at hp
      simp at hp
    · have hsucc : attempt_succeeded p = bb := by
        unfold attempt_succeeded
        rw [hfst]
        cases bb <;> rfl
      cases bb with
      | true =>
        show main_go rest (succ + 1) (started + 1) =
          Except.ok (succ + (p :: rest).countP attempt_succeeded,
            started + (p :: rest).length,
            if 0 < succ + (p :: rest).countP attempt_succeeded
            then 0 else 1)
        rw [ih (succ + 1) (started + 1) hrest]
        have hcnt : (p :: rest).countP attempt_succeeded =
            rest.countP attempt_succeeded + 1 := by
          rw [List.countP_cons, hsucc]
          rfl
        rw [hcnt, List.length_cons]
        have e1 : succ + 1 + rest.countP attempt_succeeded =
            succ + (rest.countP attempt_succeeded + 1) := by omega
        have e2 : started + 1 + rest.length =
            started + (rest.length + 1) := by omega
        rw [e1, e2]
      | false =>
        show main_go rest succ (started + 1) =
          Except.ok (succ + (p :: rest).countP attempt_succeeded,
            started + (p :: rest).length,
            if 0 < succ + (p :: rest).countP attempt_succeeded
            then 0 else 1)
        rw [ih succ (started + 1) hrest]
        have hcnt : (p :: rest).countP attempt_succeeded =
            rest.countP attempt_succeeded := by
          rw [List.countP_cons, hsucc]
          rfl
        rw [hcnt, List.length_cons]
        have e2 : started + 1 + rest.length =
            started + (rest.length + 1) := by omega
        rw [e2]

/-- C5.  Process exit status: when every attempt of the batch
terminates normally, the aggregated success count equals the number of
attempts that returned success, every attempt is started, and the
process exit code is 0 exactly when at least one attempt succeeded and
1 otherwise. -/
theorem batch_exit_status (pairs : List (Env × Bool))
    (h : ∀ p ∈ pairs, attempt_completed p = true) :
    main_run pairs =
      Except.ok (pairs.countP attempt_succeeded, pairs.length,
        if 0 < pairs.countP attempt_succeeded then 0 else 1) := by
  have hm := main_go_spec pairs 0 0 h
  rw [main_run, hm, Nat.zero_add, Nat.zero_add]

/-- Witness for C5: outcomes [fail, success, fail] give success count 1
and exit code 0; a single failing attempt gives exit code 1. -/
theorem batch_exit_status_witness :
    main_run c5Pairs = Except.ok (1, 3, 0) ∧
    main_run [(envNoDeps, false)] = Except.ok (0, 1, 1) := by
  constructor
  · rw [batch_exit_status c5Pairs (by decide)]
    decide
  · rw [batch_exit_status [(envNoDeps, false)] (by decide)]
    decide

/-- C7 counterexample.  The claim says a missing browser-driver
dependency is fatal to the whole process and the batch does not
continue; but the `ImportError` is caught at lines 138-141 inside
`register_one_account`, which returns an ordinary per-attempt failure,
and a two-attempt batch starts both attempts and exits normally with
code 1. -/
theorem dependency_missing_caught_cex :
    (register_one_account envNoDeps false).fst = Except.ok false ∧
    main_run [(envNoDeps, false), (envNoDeps, false)] =
      Except.ok (0, 2, 1) := by decide

/-- C7 (amended).  A missing browser-driver dependency is caught at the
attempt boundary: the attempt returns `False` (with no browser session
created), and a batch whose attempts all lack the dependency still runs
every attempt and exits with code 1. -/
theorem dependency_missing_not_fatal (env : Env) (b : Bool)
    (pairs : List (Env × Bool)) (henv : env.depsAvailable = false)
    (hall : ∀ p ∈ pairs, p.fst.depsAvailable = false) :
    register_one_account env b = (Except.ok false, []) ∧
    main_run pairs = Except.ok (0, pairs.length, 1) := by
  constructor
  · rw [register_one_account, if_pos henv]
  · have hcomp : ∀ p ∈ pairs, attempt_completed p = true := by
      intro p hp
      unfold attempt_completed
      rw [register_one_account, if_pos (hall p hp)]
    have hzero : pairs.countP attempt_succeeded = 0 := by
      rw [List.countP_eq_zero]
      intro p hp
      unfold attempt_succeeded
      rw [register_one_account, if_pos (hall p hp)]
      simp
    have hm := main_go_spec pairs 0 0 hcomp
    rw [main_run, hm, hzero]
    simp

/-- Witness for the amended C7: a concrete dependency-less attempt
returns failure and a one-attempt batch runs it and exits 1. -/
theorem dependency_missing_not_fatal_witness :
    register_one_account envNoDeps true = (Except.ok false, []) ∧
    main_run [(envNoDeps, true)] = Except.ok (0, 1, 1) := by
  have h := dependency_missing_not_fatal envNoDeps true
    [(envNoDeps, true)] rfl (by decide)
  refine ⟨h.1, ?_⟩
  rw [h.2]
  rfl

/-- Witness for C1 at a concrete text: the isolated run "654321" is
returned and the 7-digit run is skipped. -/
theorem code_extractor_first_isolated_six_witness :
    extract_code c1Text = some (String.toList "654321") := by
  obtain ⟨j, hsearch, _, _, _, hext⟩ :=
    (code_extractor_first_isolated_six c1Text).2.1 14 (by decide)
  have hs : search_strict c1Text = some 14 := by decide
  rw [hs] at hsearch
  have hj : j = 14 := (Option.some.inj hsearch).symm
  subst hj
  rw [hext]
  decide

end Orchids
